import Mathlib

/-!
Verification of the handle-search engine of `src/search.c` (Rufus).

The development is a shallow embedding of the file: each C function or code
block is translated into a Lean function over explicit state, and the OS is
an oracle (`SearchEnv`) supplying the replies of the native calls.  Machine
handles are natural numbers; wide strings are lists of 16-bit code units
(`List Nat`); observable actions (native calls issued, log lines emitted,
buffers freed) are recorded in an event trace.

Memory beyond the snapshot's declared record count is modelled by making the
record array a total function `Nat → HandleRecord`: the values found at
out-of-bounds indices are arbitrary, exactly as the bytes following the
snapshot buffer are in the C program.
-/

namespace Search

/-- The NT status codes that `src/search.c` mentions.  `STATUS_ALREADY_COMPLETE`
is a success code (returned by `PhCreateHeap` when the heap already exists);
all remaining constructors are failure codes. -/
inductive NTSTATUS where
  | SUCCESS
  | ALREADY_COMPLETE
  | UNSUCCESSFUL
  | INFO_LENGTH_MISMATCH
  | NO_MEMORY
  | ACCESS_DENIED
  | BUFFER_OVERFLOW
  | BUFFER_TOO_SMALL
  | INSUFFICIENT_RESOURCES
  | OBJECT_TYPE_MISMATCH
  deriving DecidableEq, Repr

/-- `NT_SUCCESS(status)`: the severity bits of the code denote success.  Of the
codes modelled here only `STATUS_SUCCESS` and `STATUS_ALREADY_COMPLETE` are
non-negative. -/
def ntSuccess : NTSTATUS → Bool
  | .SUCCESS => true
  | .ALREADY_COMPLETE => true
  | _ => false

/-- A Windows handle held in the `processHandle` variable: either the
current-process pseudo handle `NtCurrentProcess()` (a distinguished value that
is never closed) or a real handle with a numeric value. -/
inductive WinHandle where
  | currentProcess
  | real (v : Nat)
  deriving DecidableEq, Repr

/-- One `SYSTEM_HANDLE_TABLE_ENTRY_INFO_EX` record of the snapshot
(`search.c` uses only the process id and the raw handle value). -/
structure HandleRecord where
  UniqueProcessId : Nat
  HandleValue : Nat
  ObjectTypeIndex : Nat := 0
  GrantedAccess : Nat := 0
  deriving DecidableEq, Repr

/-- Observable actions of the engine: native calls that acquire or release
resources, and the lines written through the log sink. -/
inductive Event where
  /-- `handleInfo->UniqueProcessId` was read, i.e. record `i` of the snapshot
  array was dereferenced (line 422 of `search.c`). -/
  | readRecord (i : Nat)
  /-- `PhOpenProcess` was invoked for this process id. -/
  | openProc (pid : Nat)
  /-- `pfNtClose` was invoked on this handle value. -/
  | ntClose (h : Nat)
  /-- `pfNtDuplicateObject` was invoked for this raw source handle value. -/
  | dupCall (raw : Nat)
  /-- `pfNtQueryObject(h, ObjectNameInformation, buffer, size, ...)` attempt. -/
  | queryAttempt (h : Nat) (size : Nat)
  /-- Header line `NOTE: The following process(es) are accessing ...`. -/
  | printHeader
  /-- Per-process report line `o <path>`. -/
  | printPath (s : String)
  /-- Per-process report line `o Unknown (Process ID n)`. -/
  | printUnknown (pid : Nat)
  /-- Final summary when a match was found. -/
  | printSummaryFound
  /-- Final summary when no match was found. -/
  | printSummaryNotFound
  /-- `PhFree` of the snapshot buffer. -/
  | freeSnapBuf
  /-- `PhAllocate` of the snapshot buffer with this size. -/
  | allocSnapBuf (size : Nat)
  /-- `PhFree` of the name-query buffer. -/
  | freeNameBuf
  /-- `PhAllocate` of the name-query buffer with this size. -/
  | allocNameBuf (size : Nat)
  /-- `free(wHandleName)`. -/
  | freeWName
  /-- `PhDestroyHeap()`. -/
  | destroyHeap
  deriving DecidableEq, Repr

/-- Reply of `NtOpenProcess`: a status, and the handle written on success. -/
structure OpenReply where
  status : NTSTATUS
  handle : Nat
  deriving DecidableEq, Repr

/-- Reply of `NtDuplicateObject`: a status, and the target handle written on
success. -/
structure DupReply where
  status : NTSTATUS
  handle : Nat
  deriving DecidableEq, Repr

/-- Reply of `NtQueryObject(ObjectNameInformation)`: a status, the required
size reported through the last parameter, and — when the status is a success —
the object name that was written into the buffer, as a list of wide
characters (no terminator). -/
structure QueryReply where
  status : NTSTATUS
  returnSize : Nat
  name : List Nat
  deriving DecidableEq, Repr

/-- The OS oracle: the replies of every native call the search issues, plus
the capability/heap/allocation outcomes of the setup phase.  `handles` and
`numberOfHandles` are the memory the snapshot buffer holds after a successful
capture; `handles` is total, so indices at or beyond `numberOfHandles` read
the arbitrary bytes that follow the valid records. -/
structure SearchEnv where
  selfPid : Nat
  handles : Nat → HandleRecord
  numberOfHandles : Nat
  /-- Status of `NtQuerySystemInformation(SystemExtendedHandleInformation)`
  as a function of the buffer size passed in. -/
  enumReply : Nat → NTSTATUS
  /-- Reply of `NtOpenProcess` for a given process id. -/
  openProcess : Nat → OpenReply
  /-- Reply of `NtDuplicateObject` for (source process handle value, raw handle value). -/
  dupObject : Nat → Nat → DupReply
  /-- `GetFileType h == FILE_TYPE_DISK`. -/
  isDiskFile : Nat → Bool
  /-- Reply of `NtQueryObject(h, ObjectNameInformation, ..., size, ...)`. -/
  queryObject : Nat → Nat → QueryReply
  /-- `GetModuleFileNameExU` for a process handle: `some path` on success. -/
  getModuleFileName : WinHandle → Option String
  /-- `GetProcessId` for a process handle. -/
  getProcessId : WinHandle → Nat
  /-- Modelled from the spec: `CHECK_FOR_USER_CANCEL` (the macro lives in
  `rufus.h`, outside `src/`): whether the user-cancellation check polled at
  iteration `i` fires; if so the loop is aborted and control proceeds to the
  finalization block. -/
  cancel : Nat → Bool
  /-- The `PF_INIT_OR_SET_STATUS` chain resolved every required entry point. -/
  capsOk : Bool
  /-- `PhCreateHeap` succeeded. -/
  heapOk : Bool
  /-- The initial `PhAllocate(0x200)` of the name-query buffer succeeded. -/
  initialNameBufOk : Bool

/-- Modelled from the spec: the hard ceiling `PH_LARGE_BUFFER_SIZE` referenced
at line 208 of `search.c` is defined in a header outside `src/`; the spec
describes it as "tens of megabytes". -/
def PH_LARGE_BUFFER_SIZE : Nat := 64 * 1024 * 1024

/-- `wcslen`: number of wide characters before the first NUL.  A list models a
NUL-terminated buffer whose contents are the listed code units. -/
def wcslen (l : List Nat) : Nat := (l.takeWhile (fun c => c != 0)).length

/-- C `wcsncmp` on NUL-terminated wide strings: compare at most `n` code
units, stopping early at a difference or at a NUL in both strings.  Positions
past a list's end read the terminator (code unit `0`). -/
def wcsncmp : List Nat → List Nat → Nat → Int
  | _, _, 0 => 0
  | a, b, n + 1 =>
    let c1 := a.headD 0
    let c2 := b.headD 0
    if c1 ≠ c2 then (c1 : Int) - (c2 : Int)
    else if c1 = 0 then 0
    else wcsncmp a.tail b.tail n

/-- Wide encoding of an ASCII string (the `utf8_to_wchar` conversion of the
target name, which is an external collaborator in the spec). -/
def strToWide (s : String) : List Nat := s.data.map Char.toNat

/-- The immutable per-search inputs after conversion (`MatchCriteria`):
the wide target, its `(USHORT)wcslen` length, and the two flags. -/
structure SearchConfig where
  wHandleName : List Nat
  wHandleNameLen : Nat
  bPartialMatch : Bool
  bIgnoreSelf : Bool

/-- Lines 390-391 of `search.c`: convert the target and take its length
(`wHandleNameLen` is a `USHORT`, hence the truncation). -/
def mkConfig (wHandleName : List Nat) (bPartialMatch bIgnoreSelf : Bool) : SearchConfig :=
  ⟨wHandleName, wcslen wHandleName % 65536, bPartialMatch, bIgnoreSelf⟩

/-- The local variables of `SearchProcess` that live across loop iterations
(lines 355-365).  `pid1` and `exe1` are uninitialized in the source; they are
written before their first read, so their initial model values are irrelevant. -/
structure SearchState where
  pid0 : Nat := 0
  pid1 : Nat := 0
  cur_pid : Nat := 1
  last_access_denied_pid : Nat := 0
  bufferSize : Nat := 0x200
  dupHandle : Option Nat := none
  processHandle : Option WinHandle := none
  bFound : Bool := false
  exe0 : String := ""
  exe1 : String := ""
  cur_exe : Nat := 1
  deriving DecidableEq, Repr

/-- The state at line 406, after lines 385-394 initialized the locals. -/
def initState : SearchState := {}

/-- `pid[k]` (the index is always 0 or 1 in the source). -/
def pidGet (st : SearchState) (k : Nat) : Nat :=
  if k % 2 = 0 then st.pid0 else st.pid1

/-- `pid[k] = v`. -/
def pidSet (st : SearchState) (k v : Nat) : SearchState :=
  if k % 2 = 0 then { st with pid0 := v } else { st with pid1 := v }

/-- `exe[k]`. -/
def exeGet (st : SearchState) (k : Nat) : String :=
  if k % 2 = 0 then st.exe0 else st.exe1

/-- `exe[k] = v` (the `GetModuleFileNameExU` write target). -/
def exeSet (st : SearchState) (k : Nat) (v : String) : SearchState :=
  if k % 2 = 0 then { st with exe0 := v } else { st with exe1 := v }

/-- `PhOpenProcess` (lines 237-259): for the caller's own process id the
current-process pseudo handle is returned without an OS call; otherwise
`NtOpenProcess` is issued and the handle is delivered only on success. -/
def phOpenProcess (env : SearchEnv) (pid : Nat) : NTSTATUS × Option WinHandle :=
  if pid = env.selfPid then (.SUCCESS, some .currentProcess)
  else
    let r := env.openProcess pid
    if ntSuccess r.status then (r.status, some (.real r.handle))
    else (r.status, none)

/-- Lines 410-413: close the previous iteration's duplicated handle, unless
the process handle is the current-process pseudo handle (in which case
`dupHandle` holds a raw handle of our own table and must not be closed). -/
def closeDupPhase (st : SearchState) : SearchState × List Event :=
  match st.dupHandle with
  | some d =>
    if st.processHandle ≠ some WinHandle.currentProcess then
      ({ st with dupHandle := none }, [Event.ntClose d])
    else (st, [])
  | none => (st, [])

/-- Lines 427-431: close the previously opened process handle — never the
current-process pseudo handle — and clear the slot. -/
def closeProcPhase (st : SearchState) : SearchState × List Event :=
  match st.processHandle with
  | some (.real h) => ({ st with processHandle := none }, [Event.ntClose h])
  | some .currentProcess => ({ st with processHandle := none }, [])
  | none => (st, [])

/-- Lines 422-432: store the current record's process id in `pid[cur_pid]`;
when the two slots now differ, rotate `cur_pid` and close the previously
opened process handle. -/
def rotatePidPhase (st : SearchState) (p : Nat) : SearchState × List Event :=
  let st := pidSet st st.cur_pid p
  if st.pid0 ≠ st.pid1 then
    closeProcPhase { st with cur_pid := (st.cur_pid + 1) % 2 }
  else (st, [])

/-- How an iteration of the `for (i = 0; ; i++)` loop ends: fall through to
`i++` (`continue` or the end of the body), `break` at line 442, or the
user-cancellation abort. -/
inductive StepExit where
  | next
  | brk
  | cancelled
  deriving DecidableEq, Repr

/-- Lines 406-442 of the loop body: dup-handle cleanup, the (unconditional)
read of record `i`, pid rotation, the cancellation poll, the access-denied
memo skip, and the exit-condition test.  Returns `some exit` when the
iteration ends here and `none` when control reaches the candidate-processing
part (which implies `i < numberOfHandles`). -/
def stepGuards (env : SearchEnv) (st : SearchState) (i : Nat) :
    SearchState × List Event × Option StepExit :=
  let c := closeDupPhase st
  let p := (env.handles i).UniqueProcessId
  let r := rotatePidPhase c.1 p
  let ev := c.2 ++ Event.readRecord i :: r.2
  if env.cancel i then (r.1, ev, some .cancelled)
  else if p = r.1.last_access_denied_pid then (r.1, ev, some .next)
  else if i ≥ env.numberOfHandles then (r.1, ev, some .brk)
  else (r.1, ev, none)

/-- Lines 445-458: open the owning process if the pid changed (the test
`pid[0] != pid[1]` is re-evaluated on the unchanged array, so it agrees with
the rotation test).  On failure clear the slot, memoize an access-denied pid,
and skip the candidate (`false`). -/
def openPhase (env : SearchEnv) (st : SearchState) (p : Nat) :
    SearchState × List Event × Bool :=
  if st.pid0 ≠ st.pid1 then
    match phOpenProcess env p with
    | (_, some ph) => ({ st with processHandle := some ph }, [Event.openProc p], true)
    | (s, none) =>
      if s = .ACCESS_DENIED then
        ({ st with processHandle := none, last_access_denied_pid := p },
          [Event.openProc p], false)
      else ({ st with processHandle := none }, [Event.openProc p], false)
  else (st, [], true)

/-- Lines 461-470: for the caller's own process use the raw handle value
directly (no duplication); otherwise duplicate the raw handle into the local
process.  Returns the local handle to use, or `none` to skip the candidate.
A failed `NtDuplicateObject` does not write its output parameter, so
`dupHandle` keeps its previous value there.  When the slot holds no process
handle (an earlier open of this pid failed) the duplication call is still
issued — with a NULL source process handle — and fails. -/
def dupPhase (env : SearchEnv) (cfg : SearchConfig) (st : SearchState) (raw : Nat) :
    SearchState × List Event × Option Nat :=
  match st.processHandle with
  | some .currentProcess =>
    if cfg.bIgnoreSelf then (st, [], none)
    else ({ st with dupHandle := some raw }, [], some raw)
  | some (.real h) =>
    let r := env.dupObject h raw
    if ntSuccess r.status then
      ({ st with dupHandle := some r.handle }, [Event.dupCall raw], some r.handle)
    else (st, [Event.dupCall raw], none)
  | none => (st, [Event.dupCall raw], none)

/-- Result of the name-query retry loop: final status, the buffer size after
the loop (the reallocations persist into later candidates), the name written
on success, and the events of the loop. -/
structure QueryOut where
  status : NTSTATUS
  bufferSize : Nat
  name : List Nat
  events : List Event
  deriving DecidableEq, Repr

/-- Lines 477-489, `do { ... } while (--attempts)` with `attempts = 8`: query
the object name; on `STATUS_BUFFER_OVERFLOW`, `STATUS_INFO_LENGTH_MISMATCH`
or `STATUS_BUFFER_TOO_SMALL` reallocate the buffer to exactly the size the OS
reported and retry; any other status leaves the loop.  `a` is the value of
`attempts` before the body runs, so the body executes at most `a` times. -/
def queryLoop (env : SearchEnv) (h : Nat) : Nat → Nat → QueryOut
  | size, 0 => ⟨.UNSUCCESSFUL, size, [], []⟩
  | size, a + 1 =>
    let r := env.queryObject h size
    if r.status = .BUFFER_OVERFLOW ∨ r.status = .INFO_LENGTH_MISMATCH ∨
        r.status = .BUFFER_TOO_SMALL then
      let ev := [Event.queryAttempt h size, Event.freeNameBuf, Event.allocNameBuf r.returnSize]
      if a = 0 then ⟨r.status, r.returnSize, r.name, ev⟩
      else
        let q := queryLoop env h r.returnSize a
        ⟨q.status, q.bufferSize, q.name, ev ++ q.events⟩
    else ⟨r.status, size, r.name, [Event.queryAttempt h size]⟩

/-- Lines 508-522, reporting a match whose executable path resolved: write the
path into `exe[cur_exe]`, and print it only when the two slots now differ
(`strcmp(exe[0], exe[1]) != 0`), rotating `cur_exe` after a print. -/
def reportResolved (st : SearchState) (path : String) : SearchState × List Event :=
  let st := exeSet st st.cur_exe path
  if st.exe0 ≠ st.exe1 then
    ({ st with cur_exe := (st.cur_exe + 1) % 2 }, [Event.printPath (exeGet st st.cur_exe)])
  else (st, [])

/-- `GetModuleFileNameExU(processHandle, ...)` for the (possibly NULL)
process-handle slot; the call fails on a NULL handle. -/
def moduleFileNameOf (env : SearchEnv) : Option WinHandle → Option String
  | some ph => env.getModuleFileName ph
  | none => none

/-- `GetProcessId(processHandle)`; `0` for a NULL handle. -/
def processIdOf (env : SearchEnv) : Option WinHandle → Nat
  | some ph => env.getProcessId ph
  | none => 0

/-- Lines 477-522: the name-query loop, the match tests and the reporting.
`UNICODE_STRING.Length` is a byte count, so `buffer->Name.Length` is twice
the number of wide characters of the resolved name.  The `processHandle`
variable is not modified between the duplication and the reporting, so the
reporting reads it from the incoming state. -/
def matchReportPhase (env : SearchEnv) (cfg : SearchConfig) (st : SearchState) (h : Nat) :
    SearchState × List Event :=
  let q := queryLoop env h st.bufferSize 8
  let st1 := { st with bufferSize := q.bufferSize }
  if ¬ ntSuccess q.status then (st1, q.events)
  else
    let nameLenBytes := 2 * q.name.length
    if ¬ cfg.bPartialMatch ∧ cfg.wHandleNameLen ≠ nameLenBytes then (st1, q.events)
    else if cfg.bPartialMatch ∧ cfg.wHandleNameLen > nameLenBytes then (st1, q.events)
    else if wcsncmp cfg.wHandleName q.name cfg.wHandleNameLen ≠ 0 then (st1, q.events)
    else
      let st2 := if st1.bFound then st1 else { st1 with bFound := true }
      let hev : List Event := if st1.bFound then [] else [Event.printHeader]
      match moduleFileNameOf env st.processHandle with
      | some path =>
        let rr := reportResolved st2 path
        (rr.1, q.events ++ hev ++ rr.2)
      | none =>
        (st2, q.events ++ hev ++ [Event.printUnknown (processIdOf env st.processHandle)])

/-- Lines 445-522: everything a candidate record goes through once the
exit-condition test has been passed.  Always falls through to `i++`. -/
def processCandidate (env : SearchEnv) (cfg : SearchConfig) (st : SearchState) (i : Nat) :
    SearchState × List Event :=
  let record := env.handles i
  let o := openPhase env st record.UniqueProcessId
  if o.2.2 then
    let d := dupPhase env cfg o.1 record.HandleValue
    match d.2.2 with
    | none => (d.1, o.2.1 ++ d.2.1)
    | some h =>
      if env.isDiskFile h then
        let m := matchReportPhase env cfg d.1 h
        (m.1, o.2.1 ++ d.2.1 ++ m.2)
      else (d.1, o.2.1 ++ d.2.1)
  else (o.1, o.2.1)

/-- One full iteration of the per-candidate loop (lines 406-523). -/
def step (env : SearchEnv) (cfg : SearchConfig) (st : SearchState) (i : Nat) :
    SearchState × List Event × StepExit :=
  let pre := stepGuards env st i
  match pre.2.2 with
  | some ex => (pre.1, pre.2.1, ex)
  | none =>
    let pc := processCandidate env cfg pre.1 i
    (pc.1, pre.2.1 ++ pc.2, .next)

/-- The `for (i = 0; ; i++)` loop.  The loop of the source program has no
syntactic bound (the exit test sits mid-body and can be postponed by the
`continue` before it), so the model carries fuel; `none` means the fuel ran
out before the loop exited.  The result pairs the final state with the list
of executed iterations, each carrying its index and its events. -/
def runLoop (env : SearchEnv) (cfg : SearchConfig) :
    SearchState → Nat → Nat → Option (SearchState × List (Nat × List Event))
  | _, _, 0 => none
  | st, i, fuel + 1 =>
    match step env cfg st i with
    | (st1, ev, .next) =>
      match runLoop env cfg st1 (i + 1) fuel with
      | none => none
      | some (stf, l) => some (stf, (i, ev) :: l)
    | (st1, ev, .brk) => some (st1, [(i, ev)])
    | (st1, ev, .cancelled) => some (st1, [(i, ev)])

/-- Result of the snapshot capture loop of `PhEnumHandlesEx` (lines 202-214):
either the hard-ceiling early return (`STATUS_INSUFFICIENT_RESOURCES`, taken
after the buffer was freed), or the `while` condition became false with this
status and buffer size, or the fuel ran out. -/
inductive EnumLoopResult where
  | insufficient (ev : List Event)
  | exited (status : NTSTATUS) (size : Nat) (ev : List Event)
  | fuelOut
  deriving DecidableEq, Repr

/-- Lines 202-214: query; while the status is `STATUS_INFO_LENGTH_MISMATCH`,
free the buffer, double the size, fail with `STATUS_INSUFFICIENT_RESOURCES`
beyond `PH_LARGE_BUFFER_SIZE`, reallocate and retry. -/
def phEnumLoop (env : SearchEnv) : Nat → Nat → EnumLoopResult
  | 0, _ => .fuelOut
  | fuel + 1, size =>
    let s := env.enumReply size
    if s = .INFO_LENGTH_MISMATCH then
      let newSize := size * 2
      if newSize > PH_LARGE_BUFFER_SIZE then .insufficient [Event.freeSnapBuf]
      else
        match phEnumLoop env fuel newSize with
        | .fuelOut => .fuelOut
        | .insufficient ev =>
          .insufficient (Event.freeSnapBuf :: Event.allocSnapBuf newSize :: ev)
        | .exited s1 sz ev =>
          .exited s1 sz (Event.freeSnapBuf :: Event.allocSnapBuf newSize :: ev)
    else .exited s size []

/-- `PhEnumHandlesEx` (lines 186-226) with the initial buffer size `0x10000`:
the boolean is true iff a snapshot was delivered to the caller (on any
failure the buffer has been freed and `*Handles` is untouched). -/
def PhEnumHandlesEx (env : SearchEnv) (fuel : Nat) :
    Option (NTSTATUS × Bool × List Event) :=
  let initialBufferSize := 0x10000
  match phEnumLoop env fuel initialBufferSize with
  | .fuelOut => none
  | .insufficient ev =>
    some (.INSUFFICIENT_RESOURCES, false, Event.allocSnapBuf initialBufferSize :: ev)
  | .exited s _ ev =>
    if ntSuccess s then some (s, true, Event.allocSnapBuf initialBufferSize :: ev)
    else some (s, false, Event.allocSnapBuf initialBufferSize :: (ev ++ [Event.freeSnapBuf]))

/-- The `out:` block (lines 525-535): the summary line, `free(wHandleName)`,
`PhFree(buffer)`, `PhFree(handles)`, `PhDestroyHeap()`.  No handle is closed
here. -/
def outEvents (found : Bool) : List Event :=
  (if found then [Event.printSummaryFound] else [Event.printSummaryNotFound]) ++
    [Event.freeWName, Event.freeNameBuf, Event.freeSnapBuf, Event.destroyHeap]

/-- Events that are lines of the match report (the header and the
per-process lines); the final summary is not part of the report. -/
def isReportLine : Event → Bool
  | .printHeader => true
  | .printPath _ => true
  | .printUnknown _ => true
  | _ => false

/-- Events that are `PhOpenProcess` invocations. -/
def isOpenProc : Event → Bool
  | .openProc _ => true
  | _ => false

/-- Events that are `pfNtClose` invocations. -/
def isNtClose : Event → Bool
  | .ntClose _ => true
  | _ => false

/-- Events that are `pfNtDuplicateObject` invocations. -/
def isDupCall : Event → Bool
  | .dupCall _ => true
  | _ => false

/-- Events that are `pfNtQueryObject` attempts. -/
def isQueryAttempt : Event → Bool
  | .queryAttempt _ _ => true
  | _ => false

/-- Events that can only be produced by the candidate-processing part of an
iteration (lines 445-522): process opens, duplications, name queries and
report lines. -/
def isCandidateProcessing : Event → Bool
  | .openProc _ => true
  | .dupCall _ => true
  | .queryAttempt _ _ => true
  | .printHeader => true
  | .printPath _ => true
  | .printUnknown _ => true
  | _ => false

/-- `SearchProcess` (lines 346-536): setup (capability resolution, private
heap, snapshot capture, target conversion, initial name buffer), the
per-candidate loop, and the `out:` block.  Returns the `bFound` result and
the full event trace; `none` when the fuel ran out. -/
def searchProcess (env : SearchEnv) (wHandleName : List Nat)
    (bPartialMatch bIgnoreSelf : Bool) (fuel : Nat) : Option (Bool × List Event) :=
  if env.capsOk ∧ env.heapOk then
    match PhEnumHandlesEx env fuel with
    | none => none
    | some (_, gotSnap, eev) =>
      if gotSnap then
        let cfg := mkConfig wHandleName bPartialMatch bIgnoreSelf
        if env.initialNameBufOk then
          match runLoop env cfg initState 0 fuel with
          | none => none
          | some (stf, iters) =>
            some (stf.bFound,
              eev ++ Event.allocNameBuf 0x200 :: (iters.map Prod.snd).flatten ++
                outEvents stf.bFound)
        else some (false, eev ++ outEvents false)
      else some (false, eev ++ outEvents false)
  else some (false, outEvents false)

/-- Fold of the match-reporting logic over a list of resolved executable
paths, collecting the printed report lines.  States the deduplication
behavior of `reportResolved` over consecutive matches. -/
def runReports (st : SearchState) : List String → List Event
  | [] => []
  | p :: ps =>
    let r := reportResolved st p
    r.2 ++ runReports r.1 ps

/-- The process id of the record preceding record `i` in iteration order:
for `i = 0` it is `0`, the initial value of `pid[0]` (line 385). -/
def prevPid (env : SearchEnv) (i : Nat) : Nat :=
  if i = 0 then 0 else (env.handles (i - 1)).UniqueProcessId

/-- The events of a snapshot-capture loop result. -/
def EnumLoopResult.events : EnumLoopResult → List Event
  | .insufficient ev => ev
  | .exited _ _ ev => ev
  | .fuelOut => []

/-- Whether the capture loop took the hard-ceiling early return. -/
def EnumLoopResult.isInsufficient : EnumLoopResult → Bool
  | .insufficient _ => true
  | _ => false

/-- The value of one length-mismatch pass of the snapshot capture loop below
the ceiling: the buffer is freed, the doubled size is allocated, and the
loop retries with the doubled size and one fewer unit of fuel. -/
def enumRetryStep (env : SearchEnv) (fuel size : Nat) : EnumLoopResult :=
  match phEnumLoop env fuel (size * 2) with
  | .fuelOut => .fuelOut
  | .insufficient ev =>
    .insufficient (Event.freeSnapBuf :: Event.allocSnapBuf (size * 2) :: ev)
  | .exited s sz ev =>
    .exited s sz (Event.freeSnapBuf :: Event.allocSnapBuf (size * 2) :: ev)

/-- The value of one size-error pass of the name-query loop: the buffer is
reallocated to exactly the size the OS reported, and the loop continues with
one fewer attempt. -/
def queryRetryStep (env : SearchEnv) (h size a : Nat) : QueryOut :=
  let rs := (env.queryObject h size).returnSize
  let q := queryLoop env h rs a
  ⟨q.status, q.bufferSize, q.name,
    [Event.queryAttempt h size, Event.freeNameBuf, Event.allocNameBuf rs] ++ q.events⟩

/-- The access-denied memo either still has its initial value `0` or holds
the pid of some record already iterated over (the invariant that powers the
termination analysis of the loop). -/
def memoInv (env : SearchEnv) (st : SearchState) (i : Nat) : Prop :=
  st.last_access_denied_pid = 0 ∨
    ∃ j, j < i ∧ st.last_access_denied_pid = (env.handles j).UniqueProcessId

/-! ### Concrete environments used to evaluate the engine on specific inputs -/

/-- A quiescent OS: snapshot capture succeeds, every other call fails, no
cancellation.  The scenario environments below override the relevant fields. -/
def baseEnv : SearchEnv where
  selfPid := 1
  handles := fun _ => ⟨3, 0, 0, 0⟩
  numberOfHandles := 0
  enumReply := fun _ => .SUCCESS
  openProcess := fun _ => ⟨.UNSUCCESSFUL, 0⟩
  dupObject := fun _ _ => ⟨.UNSUCCESSFUL, 0⟩
  isDiskFile := fun _ => false
  queryObject := fun _ _ => ⟨.UNSUCCESSFUL, 0, []⟩
  getModuleFileName := fun _ => none
  getProcessId := fun _ => 0
  cancel := fun _ => false
  capsOk := true
  heapOk := true
  initialNameBufOk := true

/-- The target of end-to-end scenario 1 as a wide string (32 characters). -/
def targetName : List Nat := strToWide "\\Device\\HarddiskVolume3\\file.txt"

/-- Scenario of C1: one handle record, owned by process 2 (not the caller,
pid 1), whose object name resolves to exactly `targetName`; opening,
duplication, the disk-type check and the name query all succeed. -/
def c1env : SearchEnv := { baseEnv with
  handles := fun i => if i = 0 then ⟨2, 7, 0, 0⟩ else ⟨3, 0, 0, 0⟩
  numberOfHandles := 1
  openProcess := fun _ => ⟨.SUCCESS, 100⟩
  dupObject := fun _ _ => ⟨.SUCCESS, 50⟩
  isDiskFile := fun _ => true
  queryObject := fun _ _ => ⟨.SUCCESS, 72, targetName⟩
  getModuleFileName := fun _ => some "C:\\prog.exe"
  getProcessId := fun _ => 2 }

/-- Scenario of C2: two records of process 2; the open succeeds (handle 100),
both duplications fail, and the user cancels at the second iteration, so the
function returns while `processHandle` still holds handle 100. -/
def c2env : SearchEnv := { baseEnv with
  handles := fun i =>
    if i = 0 then ⟨2, 7, 0, 0⟩ else if i = 1 then ⟨2, 9, 0, 0⟩ else ⟨5, 0, 0, 0⟩
  numberOfHandles := 2
  openProcess := fun _ => ⟨.SUCCESS, 100⟩
  cancel := fun i => i = 1 }

/-- Scenario of C3: record 0 belongs to the caller itself (raw handle value
7), record 1 to process 2 whose open is denied; the record found past the end
of the snapshot belongs to yet another process. -/
def c3env : SearchEnv := { baseEnv with
  handles := fun i =>
    if i = 0 then ⟨1, 7, 0, 0⟩ else if i = 1 then ⟨2, 9, 0, 0⟩ else ⟨99, 0, 0, 0⟩
  numberOfHandles := 2
  openProcess := fun _ => ⟨.ACCESS_DENIED, 0⟩ }

/-- Scenario of C4: an empty snapshot (`NumberOfHandles = 0`); the memory
right after the (zero) records reads as a record of process 5. -/
def c4env : SearchEnv := { baseEnv with
  handles := fun _ => ⟨5, 0, 0, 0⟩
  numberOfHandles := 0 }

/-- Scenario of C5: an empty snapshot whose out-of-bounds record at index 0
happens to carry process id 0 — the initial value of the access-denied memo —
so the `continue` at line 438 fires before the exit test is ever reached. -/
def c5env : SearchEnv := { baseEnv with
  handles := fun i => if i = 0 then ⟨0, 0, 0, 0⟩ else ⟨7, 0, 0, 0⟩
  numberOfHandles := 0 }

/-- A snapshot of one record (process 2) whose out-of-bounds neighbor reads
as pid 3 — distinct from every in-bounds pid and from the initial memo. -/
def c5wenv : SearchEnv := { baseEnv with
  handles := fun i => if i = 0 then ⟨2, 4, 0, 0⟩ else ⟨3, 0, 0, 0⟩
  numberOfHandles := 1 }

/-- An OS on which every `NtQueryObject` name query reports a length mismatch
asking for 16 more bytes, and whose snapshot holds one record. -/
def c7wenv : SearchEnv := { baseEnv with
  numberOfHandles := 1
  queryObject := fun _ size => ⟨.INFO_LENGTH_MISMATCH, size + 16, []⟩ }

/-- An OS on which every process open is denied; two records of process 2. -/
def c9wenv : SearchEnv := { baseEnv with
  handles := fun _ => ⟨2, 9, 0, 0⟩
  numberOfHandles := 2
  openProcess := fun _ => ⟨.ACCESS_DENIED, 0⟩ }

/-- An OS whose handle enumeration reports `STATUS_INFO_LENGTH_MISMATCH` for
every buffer size, so the capture loop doubles until the hard ceiling. -/
def c6wenv : SearchEnv := { baseEnv with
  enumReply := fun _ => .INFO_LENGTH_MISMATCH }

/-! ### Theorems -/

/-! #### Helper lemmas about the phases of the loop body -/

theorem closeDupPhase_fields (st : SearchState) :
    (closeDupPhase st).1.pid0 = st.pid0 ∧ (closeDupPhase st).1.pid1 = st.pid1 ∧
      (closeDupPhase st).1.cur_pid = st.cur_pid ∧
      (closeDupPhase st).1.last_access_denied_pid = st.last_access_denied_pid ∧
      (closeDupPhase st).1.processHandle = st.processHandle := by
  unfold closeDupPhase
  rcases st.dupHandle with _ | d <;> dsimp only <;> [skip; split] <;> simp

theorem closeDupPhase_events (st : SearchState) :
    (closeDupPhase st).2 = [] ∨ ∃ d, (closeDupPhase st).2 = [Event.ntClose d] := by
  unfold closeDupPhase
  rcases st.dupHandle with _ | d <;> dsimp only <;> [skip; split] <;> simp

theorem closeProcPhase_fields (st : SearchState) :
    (closeProcPhase st).1.pid0 = st.pid0 ∧ (closeProcPhase st).1.pid1 = st.pid1 ∧
      (closeProcPhase st).1.cur_pid = st.cur_pid ∧
      (closeProcPhase st).1.last_access_denied_pid = st.last_access_denied_pid ∧
      (closeProcPhase st).1.dupHandle = st.dupHandle := by
  unfold closeProcPhase
  rcases st.processHandle with _ | (_ | v) <;> simp

theorem closeProcPhase_events (st : SearchState) :
    (closeProcPhase st).2 = [] ∨ ∃ h, (closeProcPhase st).2 = [Event.ntClose h] := by
  unfold closeProcPhase
  rcases st.processHandle with _ | (_ | v) <;> simp

theorem rotatePidPhase_memo (st : SearchState) (p : Nat) :
    (rotatePidPhase st p).1.last_access_denied_pid = st.last_access_denied_pid := by
  unfold rotatePidPhase pidSet
  split <;> dsimp only <;> (try split) <;>
    simp [closeProcPhase_fields _ |>.2.2.2.1]

theorem rotatePidPhase_events (st : SearchState) (p : Nat) :
    (rotatePidPhase st p).2 = [] ∨ ∃ h, (rotatePidPhase st p).2 = [Event.ntClose h] := by
  unfold rotatePidPhase
  dsimp only
  split <;> [exact closeProcPhase_events _; simp]

/-- The slot comparison after the write at line 422 is `p ≠ previous slot
value`, and afterwards the slot not designated by `cur_pid` always holds `p`,
the pid of the record just processed. -/
theorem rotatePidPhase_pids (st : SearchState) (p : Nat) :
    (((rotatePidPhase st p).1.pid0 ≠ (rotatePidPhase st p).1.pid1) ↔
        p ≠ pidGet st (1 - st.cur_pid % 2)) ∧
      pidGet (rotatePidPhase st p).1 (1 - (rotatePidPhase st p).1.cur_pid % 2) = p := by
  rcases Nat.mod_two_eq_zero_or_one st.cur_pid with h | h
  · have h2 : (st.cur_pid + 1) % 2 = 1 := by omega
    by_cases hp : p = st.pid1
    · simp [rotatePidPhase, pidSet, pidGet, h, hp]
    · rcases hph : st.processHandle with _ | (_ | v) <;>
        simp [rotatePidPhase, pidSet, pidGet, closeProcPhase, h, h2, hp, hph]
  · have h2 : (st.cur_pid + 1) % 2 = 0 := by omega
    by_cases hp : p = st.pid0
    · simp [rotatePidPhase, pidSet, pidGet, h, hp]
    · rcases hph : st.processHandle with _ | (_ | v) <;>
        simp [rotatePidPhase, pidSet, pidGet, closeProcPhase, h, h2, hp, Ne.symm hp, hph]

theorem stepGuards_events (env : SearchEnv) (st : SearchState) (i : Nat) :
    (stepGuards env st i).2.1 =
      (closeDupPhase st).2 ++ Event.readRecord i ::
        (rotatePidPhase (closeDupPhase st).1 (env.handles i).UniqueProcessId).2 := by
  unfold stepGuards
  dsimp only
  split_ifs <;> rfl

theorem stepGuards_state (env : SearchEnv) (st : SearchState) (i : Nat) :
    (stepGuards env st i).1 =
      (rotatePidPhase (closeDupPhase st).1 (env.handles i).UniqueProcessId).1 := by
  unfold stepGuards
  dsimp only
  split_ifs <;> rfl

theorem stepGuards_exit (env : SearchEnv) (st : SearchState) (i : Nat) :
    (stepGuards env st i).2.2 =
      if env.cancel i then some .cancelled
      else if (env.handles i).UniqueProcessId = st.last_access_denied_pid then some .next
      else if i ≥ env.numberOfHandles then some .brk
      else none := by
  have hm : (rotatePidPhase (closeDupPhase st).1
      (env.handles i).UniqueProcessId).1.last_access_denied_pid =
      st.last_access_denied_pid := by
    rw [rotatePidPhase_memo]
    exact (closeDupPhase_fields st).2.2.2.1
  unfold stepGuards
  dsimp only
  simp only [hm]
  split_ifs <;> rfl

theorem stepGuards_none_lt (env : SearchEnv) (st : SearchState) (i : Nat) :
    (stepGuards env st i).2.2 = none → i < env.numberOfHandles := by
  rw [stepGuards_exit]
  split_ifs with h1 h2 h3 <;> simp_all

/-! #### Shape lemmas: which fields of the state each phase can write -/

theorem reportResolved_shape (st : SearchState) (path : String) :
    ∃ e0 e1 ce, (reportResolved st path).1 =
      { st with exe0 := e0, exe1 := e1, cur_exe := ce } := by
  unfold reportResolved exeSet
  dsimp only
  split_ifs <;> exact ⟨_, _, _, rfl⟩

theorem openPhase_shape (env : SearchEnv) (st : SearchState) (p : Nat) :
    ∃ ph m, (openPhase env st p).1 =
        { st with processHandle := ph, last_access_denied_pid := m } ∧
      (m = st.last_access_denied_pid ∨ m = p) := by
  unfold openPhase
  split_ifs with hd
  · rcases hop : phOpenProcess env p with ⟨s, _ | ph⟩ <;> dsimp only
    · split_ifs with ha
      · exact ⟨none, p, rfl, Or.inr rfl⟩
      · exact ⟨none, st.last_access_denied_pid, rfl, Or.inl rfl⟩
    · exact ⟨some ph, st.last_access_denied_pid, rfl, Or.inl rfl⟩
  · exact ⟨st.processHandle, st.last_access_denied_pid, rfl, Or.inl rfl⟩

theorem dupPhase_shape (env : SearchEnv) (cfg : SearchConfig) (st : SearchState) (raw : Nat) :
    ∃ d, (dupPhase env cfg st raw).1 = { st with dupHandle := d } := by
  unfold dupPhase
  rcases hph : st.processHandle with _ | (_ | v) <;> dsimp only <;> (try split_ifs) <;>
    first
      | exact ⟨_, rfl⟩
      | exact ⟨st.dupHandle, by rw [← hph]⟩

theorem reportResolved_shape_over (st0 st : SearchState) (path : String)
    (hsub : ∃ bs bf, st = { st0 with bufferSize := bs, bFound := bf }) :
    ∃ bs bf e0 e1 ce, (reportResolved st path).1 =
      { st0 with bufferSize := bs, bFound := bf, exe0 := e0, exe1 := e1, cur_exe := ce } := by
  obtain ⟨bs, bf, rfl⟩ := hsub
  obtain ⟨e0, e1, ce, hr⟩ := reportResolved_shape _ path
  exact ⟨bs, bf, e0, e1, ce, by rw [hr]⟩

theorem matchReportPhase_shape (env : SearchEnv) (cfg : SearchConfig) (st : SearchState)
    (h : Nat) :
    ∃ bs bf e0 e1 ce, (matchReportPhase env cfg st h).1 =
      { st with bufferSize := bs, bFound := bf, exe0 := e0, exe1 := e1, cur_exe := ce } := by
  unfold matchReportPhase
  dsimp only
  rcases hm : moduleFileNameOf env st.processHandle with _ | path <;> dsimp only <;>
    split_ifs <;>
      first
        | exact ⟨_, _, _, _, _, rfl⟩
        | exact reportResolved_shape_over st _ path ⟨_, _, rfl⟩

theorem processCandidate_shape (env : SearchEnv) (cfg : SearchConfig) (st : SearchState)
    (i : Nat) :
    ∃ ph m d bs bf e0 e1 ce, (processCandidate env cfg st i).1 =
        { st with
          processHandle := ph,
          last_access_denied_pid := m,
          dupHandle := d,
          bufferSize := bs,
          bFound := bf,
          exe0 := e0,
          exe1 := e1,
          cur_exe := ce } ∧
      (m = st.last_access_denied_pid ∨ m = (env.handles i).UniqueProcessId) := by
  unfold processCandidate
  dsimp only
  obtain ⟨ph, m, ho, hm⟩ := openPhase_shape env st (env.handles i).UniqueProcessId
  rw [ho]
  split_ifs
  · obtain ⟨d, hdp⟩ := dupPhase_shape env cfg
      { st with processHandle := ph, last_access_denied_pid := m } (env.handles i).HandleValue
    rw [hdp]
    rcases hd2 : (dupPhase env cfg { st with processHandle := ph, last_access_denied_pid := m }
        (env.handles i).HandleValue).2.2 with _ | hval <;> dsimp only
    · exact ⟨ph, m, d, _, _, _, _, _, rfl, hm⟩
    · split_ifs
      · obtain ⟨bs, bf, e0, e1, ce, hmr⟩ := matchReportPhase_shape env cfg
          { st with processHandle := ph, last_access_denied_pid := m, dupHandle := d } hval
        rw [hmr]
        exact ⟨ph, m, d, bs, bf, e0, e1, ce, rfl, hm⟩
      · exact ⟨ph, m, d, _, _, _, _, _, rfl, hm⟩
  · exact ⟨ph, m, _, _, _, _, _, _, rfl, hm⟩

/-! #### Event-count lemmas: which events each phase can emit -/

theorem openPhase_pids_eq (env : SearchEnv) (st : SearchState) (p : Nat)
    (h : st.pid0 = st.pid1) : openPhase env st p = (st, [], true) := by
  unfold openPhase
  simp [h]

theorem openPhase_events (env : SearchEnv) (st : SearchState) (p : Nat) :
    (openPhase env st p).2.1 = [] ∨
      ((openPhase env st p).2.1 = [Event.openProc p] ∧ st.pid0 ≠ st.pid1) := by
  by_cases h : st.pid0 = st.pid1
  · rw [openPhase_pids_eq env st p h]
    exact Or.inl rfl
  · right
    refine ⟨?_, h⟩
    unfold openPhase
    rcases hop : phOpenProcess env p with ⟨s, _ | ph⟩ <;> simp [h] <;> split_ifs <;> rfl

theorem dupPhase_events (env : SearchEnv) (cfg : SearchConfig) (st : SearchState) (raw : Nat) :
    (dupPhase env cfg st raw).2.1 = [] ∨
      (dupPhase env cfg st raw).2.1 = [Event.dupCall raw] := by
  unfold dupPhase
  rcases hph : st.processHandle with _ | (_ | v) <;> dsimp only <;> (try split_ifs) <;> simp

theorem reportResolved_events (st : SearchState) (path : String) :
    (reportResolved st path).2 = [] ∨
      (reportResolved st path).2 = [Event.printPath path] := by
  unfold reportResolved exeSet exeGet
  rcases Nat.mod_two_eq_zero_or_one st.cur_exe with h | h <;> simp [h] <;> split_ifs <;>
    simp [h]

theorem queryLoop_countP (env : SearchEnv) (h : Nat) (a : Nat) : ∀ size,
    ((queryLoop env h size a).events).countP isOpenProc = 0 ∧
      ((queryLoop env h size a).events).countP isDupCall = 0 ∧
      ((queryLoop env h size a).events).countP isNtClose = 0 ∧
      ((queryLoop env h size a).events).countP isReportLine = 0 := by
  induction a with
  | zero => intro size; simp [queryLoop]
  | succ n ih =>
    intro size
    obtain ⟨i1, i2, i3, i4⟩ := ih (env.queryObject h size).returnSize
    unfold queryLoop
    dsimp only
    split_ifs with hc hz <;>
      simp [List.countP_cons, List.countP_append, isOpenProc, isDupCall, isNtClose,
        isReportLine, i1, i2, i3, i4]

theorem queryLoop_attempts (env : SearchEnv) (h : Nat) (a : Nat) : ∀ size,
    ((queryLoop env h size a).events).countP isQueryAttempt ≤ a := by
  induction a with
  | zero => intro size; simp [queryLoop]
  | succ n ih =>
    intro size
    have := ih (env.queryObject h size).returnSize
    unfold queryLoop
    dsimp only
    split_ifs with hc hz <;>
      simp [List.countP_cons, List.countP_append, isQueryAttempt] <;> omega

theorem matchReportPhase_countP (env : SearchEnv) (cfg : SearchConfig) (st : SearchState)
    (h : Nat) :
    ((matchReportPhase env cfg st h).2).countP isOpenProc = 0 ∧
      ((matchReportPhase env cfg st h).2).countP isDupCall = 0 ∧
      ((matchReportPhase env cfg st h).2).countP isNtClose = 0 := by
  obtain ⟨q1, q2, q3, -⟩ := queryLoop_countP env h 8 st.bufferSize
  have hrr1 : ∀ (st1 : SearchState) (path : String),
      ((reportResolved st1 path).2).countP isOpenProc = 0 := by
    intro st1 path
    rcases reportResolved_events st1 path with hr | hr <;> rw [hr] <;> simp [isOpenProc]
  have hrr2 : ∀ (st1 : SearchState) (path : String),
      ((reportResolved st1 path).2).countP isDupCall = 0 := by
    intro st1 path
    rcases reportResolved_events st1 path with hr | hr <;> rw [hr] <;> simp [isDupCall]
  have hrr3 : ∀ (st1 : SearchState) (path : String),
      ((reportResolved st1 path).2).countP isNtClose = 0 := by
    intro st1 path
    rcases reportResolved_events st1 path with hr | hr <;> rw [hr] <;> simp [isNtClose]
  unfold matchReportPhase
  dsimp only
  rcases hm : moduleFileNameOf env st.processHandle with _ | path <;> dsimp only <;>
    split_ifs <;>
      simp [List.countP_append, List.countP_cons, isOpenProc, isDupCall, isNtClose,
        q1, q2, q3, hrr1, hrr2, hrr3]

theorem step_eq (env : SearchEnv) (cfg : SearchConfig) (st : SearchState) (i : Nat) :
    step env cfg st i =
      match (stepGuards env st i).2.2 with
      | some ex => ((stepGuards env st i).1, (stepGuards env st i).2.1, ex)
      | none =>
        ((processCandidate env cfg (stepGuards env st i).1 i).1,
          (stepGuards env st i).2.1 ++ (processCandidate env cfg (stepGuards env st i).1 i).2,
          .next) := rfl

theorem stepGuards_countP (env : SearchEnv) (st : SearchState) (i : Nat) :
    ((stepGuards env st i).2.1).countP isCandidateProcessing = 0 ∧
      ((stepGuards env st i).2.1).countP isOpenProc = 0 := by
  rw [stepGuards_events]
  rcases closeDupPhase_events st with hc | ⟨d, hc⟩ <;>
    rcases rotatePidPhase_events (closeDupPhase st).1 (env.handles i).UniqueProcessId with
      hr | ⟨hh, hr⟩ <;>
    rw [hc, hr] <;> simp [isCandidateProcessing, isOpenProc]

theorem step_read (env : SearchEnv) (cfg : SearchConfig) (st : SearchState) (i : Nat) :
    Event.readRecord i ∈ (step env cfg st i).2.1 := by
  have hg : Event.readRecord i ∈ (stepGuards env st i).2.1 := by
    rw [stepGuards_events]
    exact List.mem_append.mpr (Or.inr (List.mem_cons_self _ _))
  rw [step_eq]
  rcases hx : (stepGuards env st i).2.2 with _ | ex <;> dsimp only
  · exact List.mem_append.mpr (Or.inl hg)
  · exact hg

theorem step_processing_lt (env : SearchEnv) (cfg : SearchConfig) (st : SearchState)
    (i : Nat) :
    ∀ e ∈ (step env cfg st i).2.1, isCandidateProcessing e = true →
      i < env.numberOfHandles := by
  rw [step_eq]
  rcases hx : (stepGuards env st i).2.2 with _ | ex <;> dsimp only <;> intro e he hp
  · exact stepGuards_none_lt env st i hx
  · exfalso
    have h0 := (stepGuards_countP env st i).1
    have := List.countP_eq_zero.mp h0 e he
    simp [hp] at this

theorem runLoop_succ (env : SearchEnv) (cfg : SearchConfig) (st : SearchState)
    (i fuel : Nat) :
    runLoop env cfg st i (fuel + 1) =
      match step env cfg st i with
      | (st1, ev, .next) =>
        match runLoop env cfg st1 (i + 1) fuel with
        | none => none
        | some (stf, l) => some (stf, (i, ev) :: l)
      | (st1, ev, .brk) => some (st1, [(i, ev)])
      | (st1, ev, .cancelled) => some (st1, [(i, ev)]) := rfl

theorem step_exit_lt (env : SearchEnv) (cfg : SearchConfig) (st : SearchState) (i : Nat)
    (h : i < env.numberOfHandles) :
    (step env cfg st i).2.2 = .next ∨ (step env cfg st i).2.2 = .cancelled := by
  rw [step_eq]
  rcases hx : (stepGuards env st i).2.2 with _ | ex <;> dsimp only
  · exact Or.inl rfl
  · rw [stepGuards_exit] at hx
    split_ifs at hx with h1 h2 h3
    · simp only [Option.some.injEq] at hx
      subst hx
      exact Or.inr rfl
    · simp only [Option.some.injEq] at hx
      subst hx
      exact Or.inl rfl
    · omega

theorem step_exit_ge (env : SearchEnv) (cfg : SearchConfig) (st : SearchState) (i : Nat)
    (h : i ≥ env.numberOfHandles)
    (hne : (env.handles i).UniqueProcessId ≠ st.last_access_denied_pid) :
    (step env cfg st i).2.2 = .brk ∨ (step env cfg st i).2.2 = .cancelled := by
  rw [step_eq]
  rcases hx : (stepGuards env st i).2.2 with _ | ex <;> dsimp only
  · exact absurd (stepGuards_none_lt env st i hx) (by omega)
  · rw [stepGuards_exit] at hx
    split_ifs at hx with h1
    · simp only [Option.some.injEq] at hx
      subst hx
      exact Or.inr rfl
    · simp only [Option.some.injEq] at hx
      subst hx
      exact Or.inl rfl

theorem stepGuards_memo (env : SearchEnv) (st : SearchState) (i : Nat) :
    (stepGuards env st i).1.last_access_denied_pid = st.last_access_denied_pid := by
  rw [stepGuards_state, rotatePidPhase_memo]
  exact (closeDupPhase_fields st).2.2.2.1

theorem step_memo (env : SearchEnv) (cfg : SearchConfig) (st : SearchState) (i : Nat) :
    (step env cfg st i).1.last_access_denied_pid = st.last_access_denied_pid ∨
      ((step env cfg st i).1.last_access_denied_pid = (env.handles i).UniqueProcessId ∧
        i < env.numberOfHandles) := by
  rw [step_eq]
  rcases hx : (stepGuards env st i).2.2 with _ | ex <;> dsimp only
  · have hlt := stepGuards_none_lt env st i hx
    obtain ⟨ph, m, d, bs, bf, e0, e1, ce, hshape, hm⟩ :=
      processCandidate_shape env cfg (stepGuards env st i).1 i
    rw [hshape]
    dsimp only
    rcases hm with hm | hm
    · left
      rw [hm, stepGuards_memo]
    · right
      exact ⟨hm, hlt⟩
  · left
    exact stepGuards_memo env st i

theorem runLoop_length_le (env : SearchEnv) (cfg : SearchConfig)
    (H1 : (env.handles env.numberOfHandles).UniqueProcessId ≠ 0)
    (H2 : ∀ j, j < env.numberOfHandles →
      (env.handles j).UniqueProcessId ≠ (env.handles env.numberOfHandles).UniqueProcessId) :
    ∀ n i st, i ≤ env.numberOfHandles → i + n = env.numberOfHandles + 1 →
      memoInv env st i →
      ∃ stf iters, runLoop env cfg st i n = some (stf, iters) ∧ iters.length ≤ n := by
  intro n
  induction n with
  | zero => intro i st hle hsum hinv; omega
  | succ n ih =>
    intro i st hle hsum hinv
    rcases hs : step env cfg st i with ⟨st1, ev, ex⟩
    rcases Nat.lt_or_ge i env.numberOfHandles with hlt | hge
    · have hx := step_exit_lt env cfg st i hlt
      rw [hs] at hx
      dsimp only at hx
      have hmemo := step_memo env cfg st i
      rw [hs] at hmemo
      dsimp only at hmemo
      rcases hx with hx | hx <;> subst hx
      · have hinv1 : memoInv env st1 (i + 1) := by
          rcases hmemo with hm | ⟨hm, -⟩
          · rcases hinv with hi | ⟨j, hj, hi⟩
            · exact Or.inl (hm.trans hi)
            · exact Or.inr ⟨j, by omega, hm.trans hi⟩
          · exact Or.inr ⟨i, by omega, hm⟩
        obtain ⟨stf, l, hrun, hlen⟩ := ih (i + 1) st1 (by omega) (by omega) hinv1
        refine ⟨stf, (i, ev) :: l, ?_, ?_⟩
        · rw [runLoop_succ, hs]
          dsimp only
          rw [hrun]
        · simp only [List.length_cons]
          omega
      · refine ⟨st1, [(i, ev)], ?_, ?_⟩
        · rw [runLoop_succ, hs]
        · simp
    · have hieq : i = env.numberOfHandles := by omega
      have hne : (env.handles i).UniqueProcessId ≠ st.last_access_denied_pid := by
        subst hieq
        rcases hinv with hi | ⟨j, hj, hi⟩
        · rw [hi]; exact H1
        · rw [hi]; exact (H2 j hj).symm
      have hx := step_exit_ge env cfg st i hge hne
      rw [hs] at hx
      dsimp only at hx
      rcases hx with hx | hx <;> subst hx <;>
        exact ⟨st1, [(i, ev)], by rw [runLoop_succ, hs], by simp⟩

/-- C1: in the end-to-end scenario — one handle of another process whose
object name is exactly `\Device\HarddiskVolume3\file.txt`, the same string as
target, partial match disabled — `SearchProcess` returns FALSE and emits no
header and no path line, because line 497 compares the target's character
count (`wcslen`, 32) against `buffer->Name.Length`, which is a byte count
(64), so exact mode skips the matching candidate.  The claim says it returns
TRUE with one header line and one path line. -/
theorem c1_exact_mode_scenario_fails :
    (searchProcess c1env targetName false false 64).map
        (fun r => (r.1, r.2.countP isReportLine)) = some (false, 0) ∧
      wcslen targetName % 65536 = 32 ∧ 2 * targetName.length = 64 := by
  refine ⟨by decide, by decide, by decide⟩

/-- C2: evaluating `SearchProcess` on the C2 scenario (user cancellation
while a non-self process handle is open): the trace contains the
`PhOpenProcess` call that produced handle 100 but no `NtClose` at all, and
the loop's final state still holds the open process handle — the `out:`
block closes nothing, contradicting the claim that every still-open non-self
process handle is closed before the function returns. -/
theorem c2_process_handle_leaked_on_cancel :
    (searchProcess c2env (strToWide "X") false true 64).map
        (fun r => (r.1, r.2.countP isOpenProc, r.2.countP isNtClose)) =
      some (false, 1, 0) ∧
    (runLoop c2env (mkConfig (strToWide "X") false true) initState 0 64).map
        (fun r => r.1.processHandle) = some (some (.real 100)) := by
  refine ⟨by decide, by decide⟩

/-- C3: evaluating `SearchProcess` on the C3 scenario (`bIgnoreSelf = FALSE`,
a self-owned candidate with raw handle value 7 followed by a candidate whose
process cannot be opened): no duplication call is ever issued, yet the trace
contains `NtClose 7` — the caller's own raw handle value is passed to
`NtClose` by the cleanup at lines 410-413 once `processHandle` no longer
holds the current-process pseudo handle, contradicting the claim. -/
theorem c3_raw_self_handle_closed :
    (searchProcess c3env (strToWide "X") false false 64).map
        (fun r => (r.2.countP isDupCall, r.2.count (Event.ntClose 7))) =
      some (0, 1) := by
  decide

/-- C4 counterexample: on an empty snapshot (`NumberOfHandles = 0`) the very
first iteration dereferences `handles->Handles[0]`, i.e. the record at index
`NumberOfHandles`, contradicting the claim that this record is never
dereferenced: the loop body reads `handleInfo->UniqueProcessId` at line 422,
before the exit-condition test at line 441. -/
theorem c4_record_at_count_dereferenced :
    c4env.numberOfHandles = 0 ∧
      (searchProcess c4env (strToWide "X") false true 8).map
          (fun r => r.2.count (Event.readRecord 0)) = some 1 := by
  refine ⟨by decide, by decide⟩

/-- C4 amended: every iteration of the loop dereferences the snapshot record
at its own index — in particular the final iteration dereferences the record
at index `NumberOfHandles`, because the read of `handleInfo->UniqueProcessId`
at line 422 precedes the exit-condition test at line 441 — while the
candidate-processing actions (process opens, duplications, name queries and
report lines) occur only in iterations with index strictly below
`NumberOfHandles`. -/
theorem c4_reads_and_processing (env : SearchEnv) (cfg : SearchConfig) (st : SearchState)
    (i : Nat) :
    Event.readRecord i ∈ (step env cfg st i).2.1 ∧
      ∀ e ∈ (step env cfg st i).2.1, isCandidateProcessing e = true →
        i < env.numberOfHandles :=
  ⟨step_read env cfg st i, step_processing_lt env cfg st i⟩

/-- Witness for the C4 amended theorem at a concrete iteration. -/
theorem c4_reads_and_processing_witness :
    Event.readRecord 0 ∈ (step c1env (mkConfig targetName false false) initState 0).2.1 ∧
      ∀ e ∈ (step c1env (mkConfig targetName false false) initState 0).2.1,
        isCandidateProcessing e = true → 0 < c1env.numberOfHandles :=
  c4_reads_and_processing c1env (mkConfig targetName false false) initState 0

/-- C5 amended: the per-candidate loop, started from the initial state, exits
within `NumberOfHandles + 1` iterations provided the (out-of-bounds) record
found at index `NumberOfHandles` carries a process id that is neither `0`
(the initial access-denied memo) nor the pid of any in-bounds record;
without that proviso the access-denied skip can fire on the out-of-bounds
record and postpone the exit test (see the counterexample). -/
theorem c5_loop_terminates_bounded (env : SearchEnv) (cfg : SearchConfig)
    (H1 : (env.handles env.numberOfHandles).UniqueProcessId ≠ 0)
    (H2 : ∀ j, j < env.numberOfHandles →
      (env.handles j).UniqueProcessId ≠
        (env.handles env.numberOfHandles).UniqueProcessId) :
    ∃ stf iters,
      runLoop env cfg initState 0 (env.numberOfHandles + 1) = some (stf, iters) ∧
        iters.length ≤ env.numberOfHandles + 1 :=
  runLoop_length_le env cfg H1 H2 (env.numberOfHandles + 1) 0 initState (by omega)
    (by omega) (Or.inl rfl)

/-- Witness for the C5 amended theorem at a concrete snapshot. -/
theorem c5_loop_terminates_bounded_witness :
    ((c5wenv.handles c5wenv.numberOfHandles).UniqueProcessId ≠ 0) ∧
      (∀ j, j < c5wenv.numberOfHandles →
        (c5wenv.handles j).UniqueProcessId ≠
          (c5wenv.handles c5wenv.numberOfHandles).UniqueProcessId) ∧
      ∃ stf iters,
        runLoop c5wenv (mkConfig (strToWide "X") false true) initState 0
            (c5wenv.numberOfHandles + 1) = some (stf, iters) ∧
          iters.length ≤ c5wenv.numberOfHandles + 1 :=
  ⟨by decide, by decide,
    c5_loop_terminates_bounded c5wenv (mkConfig (strToWide "X") false true)
      (by decide) (by decide)⟩

/-- C7: the object-name query loop runs at most 8 attempts (the count of
`NtQueryObject` calls is bounded by the `attempts` counter, 8 at the call
site); on each size-error status (buffer overflow, info length mismatch,
buffer too small) it reallocates the buffer to exactly the size the OS
reported (`queryRetryStep`) and retries; when the final status is
unsuccessful the candidate alone is skipped — `matchReportPhase` only
updates the buffer size and emits the query events, no match or report —
and the loop proceeds to the next candidate (`step` falls through to `i++`
whenever a candidate was processed). -/
theorem c7_name_query_retry_bounded :
    (∀ (env : SearchEnv) (h size a : Nat),
        ((queryLoop env h size a).events).countP isQueryAttempt ≤ a) ∧
      (∀ (env : SearchEnv) (h size a : Nat), a ≠ 0 →
        ((env.queryObject h size).status = .BUFFER_OVERFLOW ∨
            (env.queryObject h size).status = .INFO_LENGTH_MISMATCH ∨
            (env.queryObject h size).status = .BUFFER_TOO_SMALL) →
        queryLoop env h size (a + 1) = queryRetryStep env h size a) ∧
      (∀ (env : SearchEnv) (cfg : SearchConfig) (st : SearchState) (h : Nat),
        ntSuccess (queryLoop env h st.bufferSize 8).status = false →
        matchReportPhase env cfg st h =
          ({ st with bufferSize := (queryLoop env h st.bufferSize 8).bufferSize },
            (queryLoop env h st.bufferSize 8).events)) ∧
      (∀ (env : SearchEnv) (cfg : SearchConfig) (st : SearchState) (i : Nat),
        (stepGuards env st i).2.2 = none → (step env cfg st i).2.2 = .next) := by
  refine ⟨fun env h size a => queryLoop_attempts env h a size, ?_, ?_, ?_⟩
  · intro env h size a ha hc
    unfold queryLoop queryRetryStep
    dsimp only
    rw [if_pos hc, if_neg ha]
  · intro env cfg st h hq
    unfold matchReportPhase
    dsimp only
    rw [if_pos]
    simp [hq]
  · intro env cfg st i hnone
    rw [step_eq, hnone]

/-- Witness for C7 on a concrete OS whose name queries always report a
length mismatch. -/
theorem c7_name_query_retry_bounded_witness :
    ((queryLoop c7wenv 50 0x200 8).events).countP isQueryAttempt ≤ 8 ∧
      queryLoop c7wenv 50 0x200 8 = queryRetryStep c7wenv 50 0x200 7 ∧
      matchReportPhase c7wenv (mkConfig (strToWide "X") false true) initState 50 =
        ({ initState with
            bufferSize := (queryLoop c7wenv 50 initState.bufferSize 8).bufferSize },
          (queryLoop c7wenv 50 initState.bufferSize 8).events) ∧
      (step c7wenv (mkConfig (strToWide "X") false true) initState 0).2.2 = .next :=
  ⟨c7_name_query_retry_bounded.1 c7wenv 50 0x200 8,
    c7_name_query_retry_bounded.2.1 c7wenv 50 0x200 7 (by decide) (by decide),
    c7_name_query_retry_bounded.2.2.1 c7wenv (mkConfig (strToWide "X") false true)
      initState 50 (by decide),
    c7_name_query_retry_bounded.2.2.2 c7wenv (mkConfig (strToWide "X") false true)
      initState 0 (by decide)⟩

theorem countP_zero_of_processing_zero (l : List Event)
    (hl : l.countP isCandidateProcessing = 0) :
    l.countP isDupCall = 0 ∧ l.countP isQueryAttempt = 0 ∧
      l.countP isReportLine = 0 ∧ l.countP isOpenProc = 0 := by
  have h := List.countP_eq_zero.mp hl
  refine ⟨List.countP_eq_zero.mpr ?_, List.countP_eq_zero.mpr ?_,
    List.countP_eq_zero.mpr ?_, List.countP_eq_zero.mpr ?_⟩ <;>
    intro e he <;> have h2 := h e he <;> cases e <;>
      simp_all [isDupCall, isQueryAttempt, isReportLine, isOpenProc, isCandidateProcessing]

theorem openPhase_access_denied (env : SearchEnv) (st : SearchState) (p : Nat)
    (hne : p ≠ env.selfPid) (hd : (env.openProcess p).status = .ACCESS_DENIED)
    (hdiff : st.pid0 ≠ st.pid1) :
    openPhase env st p =
      ({ st with processHandle := none, last_access_denied_pid := p },
        [Event.openProc p], false) := by
  unfold openPhase phOpenProcess
  rw [if_pos hdiff, if_neg hne]
  dsimp only
  rw [hd]
  simp [ntSuccess]

/-- C9: (a) whenever the candidate's process id equals the memoized
access-denied pid (and the cancellation poll does not fire), the iteration
falls through to the next candidate without any candidate-processing action
(no `PhOpenProcess`, no duplication, no query, no report line) and the memo
is unchanged; (b) whenever a process open is actually attempted and fails
with access-denied, the pid is recorded in the memo, the candidate is
skipped, and no duplication, query or report action happens in that
iteration. -/
theorem c9_access_denied_memoization :
    (∀ (env : SearchEnv) (cfg : SearchConfig) (st : SearchState) (i : Nat),
        env.cancel i = false →
        (env.handles i).UniqueProcessId = st.last_access_denied_pid →
        (step env cfg st i).2.2 = .next ∧
          ((step env cfg st i).2.1).countP isCandidateProcessing = 0 ∧
          (step env cfg st i).1.last_access_denied_pid = st.last_access_denied_pid) ∧
      (∀ (env : SearchEnv) (cfg : SearchConfig) (st : SearchState) (i : Nat),
        (env.handles i).UniqueProcessId ≠ env.selfPid →
        (env.openProcess (env.handles i).UniqueProcessId).status = .ACCESS_DENIED →
        (stepGuards env st i).2.2 = none →
        (stepGuards env st i).1.pid0 ≠ (stepGuards env st i).1.pid1 →
        (step env cfg st i).1.last_access_denied_pid =
            (env.handles i).UniqueProcessId ∧
          (step env cfg st i).2.2 = .next ∧
          Event.openProc (env.handles i).UniqueProcessId ∈ (step env cfg st i).2.1 ∧
          ((step env cfg st i).2.1).countP isDupCall = 0 ∧
          ((step env cfg st i).2.1).countP isQueryAttempt = 0 ∧
          ((step env cfg st i).2.1).countP isReportLine = 0) := by
  constructor
  · intro env cfg st i hcancel hmemo
    have hx : (stepGuards env st i).2.2 = some .next := by
      rw [stepGuards_exit]
      simp [hcancel, hmemo]
    rw [step_eq, hx]
    exact ⟨rfl, (stepGuards_countP env st i).1, stepGuards_memo env st i⟩
  · intro env cfg st i hne hd hnone hdiff
    have hod := openPhase_access_denied env (stepGuards env st i).1
      (env.handles i).UniqueProcessId hne hd hdiff
    have hpc : processCandidate env cfg (stepGuards env st i).1 i =
        ({ (stepGuards env st i).1 with
            processHandle := none,
            last_access_denied_pid := (env.handles i).UniqueProcessId },
          [Event.openProc (env.handles i).UniqueProcessId]) := by
      unfold processCandidate
      dsimp only
      rw [hod]
      simp
    rw [step_eq, hnone]
    dsimp only
    rw [hpc]
    dsimp only
    obtain ⟨hdup, hqry, hrep, -⟩ :=
      countP_zero_of_processing_zero _ (stepGuards_countP env st i).1
    refine ⟨rfl, rfl, ?_, ?_, ?_, ?_⟩
    · exact List.mem_append.mpr (Or.inr (List.mem_singleton.mpr rfl))
    · simp [List.countP_append, List.countP_cons, isDupCall, hdup]
    · simp [List.countP_append, List.countP_cons, isQueryAttempt, hqry]
    · simp [List.countP_append, List.countP_cons, isReportLine, hrep]

/-- Witness for C9 on a concrete OS where every open is denied: part (a)
with the memo already holding pid 2 at iteration 1, part (b) at the first
open attempt. -/
theorem c9_access_denied_memoization_witness :
    ((step c9wenv (mkConfig (strToWide "X") false true)
          { initState with last_access_denied_pid := 2 } 1).2.2 = .next ∧
      ((step c9wenv (mkConfig (strToWide "X") false true)
          { initState with last_access_denied_pid := 2 } 1).2.1).countP
          isCandidateProcessing = 0 ∧
      (step c9wenv (mkConfig (strToWide "X") false true)
          { initState with last_access_denied_pid := 2 } 1).1.last_access_denied_pid =
        ({ initState with last_access_denied_pid := 2 } : SearchState).last_access_denied_pid) ∧
      ((step c9wenv (mkConfig (strToWide "X") false true) initState 0).1.last_access_denied_pid =
          (c9wenv.handles 0).UniqueProcessId ∧
        (step c9wenv (mkConfig (strToWide "X") false true) initState 0).2.2 = .next ∧
        Event.openProc (c9wenv.handles 0).UniqueProcessId ∈
          (step c9wenv (mkConfig (strToWide "X") false true) initState 0).2.1 ∧
        ((step c9wenv (mkConfig (strToWide "X") false true) initState 0).2.1).countP
            isDupCall = 0 ∧
        ((step c9wenv (mkConfig (strToWide "X") false true) initState 0).2.1).countP
            isQueryAttempt = 0 ∧
        ((step c9wenv (mkConfig (strToWide "X") false true) initState 0).2.1).countP
            isReportLine = 0) :=
  ⟨c9_access_denied_memoization.1 c9wenv (mkConfig (strToWide "X") false true)
      { initState with last_access_denied_pid := 2 } 1 (by decide) (by decide),
    c9_access_denied_memoization.2 c9wenv (mkConfig (strToWide "X") false true)
      initState 0 (by decide) (by decide) (by decide) (by decide)⟩

theorem reportResolved_characterization (st : SearchState) (p : String) :
    (reportResolved st p).2 =
      if p = exeGet st (1 - st.cur_exe % 2) then [] else [Event.printPath p] := by
  rcases Nat.mod_two_eq_zero_or_one st.cur_exe with h | h
  · by_cases hp : p = st.exe1 <;> simp [reportResolved, exeSet, exeGet, h, hp]
  · by_cases hp : p = st.exe0 <;>
      simp [reportResolved, exeSet, exeGet, h, hp]
    rw [if_neg (fun hc => hp hc.symm)]

/-- C10: the report deduplication of lines 514-519 compares the fresh path
only against the other `exe` slot — the most recently reported path — and
suppresses the line exactly when they are equal; consequently two
consecutive matches resolving to the same (nonempty) path print one line,
while paths A, B, A print three lines (A is not suppressed after B was most
recently reported). -/
theorem c10_report_dedup :
    (∀ (st : SearchState) (p : String),
        (reportResolved st p).2 =
          if p = exeGet st (1 - st.cur_exe % 2) then [] else [Event.printPath p]) ∧
      (∀ a : String, a ≠ "" → runReports initState [a, a] = [Event.printPath a]) ∧
      (∀ a b : String, a ≠ "" → a ≠ b →
        runReports initState [a, b, a] =
          [Event.printPath a, Event.printPath b, Event.printPath a]) := by
  refine ⟨reportResolved_characterization, ?_, ?_⟩
  · intro a ha
    simp [runReports, reportResolved, exeSet, exeGet, initState, Ne.symm ha]
  · intro a b ha hab
    simp [runReports, reportResolved, exeSet, exeGet, initState, Ne.symm ha,
      Ne.symm hab]

/-- Witness for C10 at the concrete paths A and B. -/
theorem c10_report_dedup_witness :
    (reportResolved initState "A").2 =
        (if "A" = exeGet initState (1 - initState.cur_exe % 2) then []
          else [Event.printPath "A"]) ∧
      runReports initState ["A", "A"] = [Event.printPath "A"] ∧
      runReports initState ["A", "B", "A"] =
        [Event.printPath "A", Event.printPath "B", Event.printPath "A"] :=
  ⟨c10_report_dedup.1 initState "A",
    c10_report_dedup.2.1 "A" (by decide),
    c10_report_dedup.2.2 "A" "B" (by decide) (by decide)⟩

theorem phEnumLoop_no_report (env : SearchEnv) : ∀ fuel size,
    ((phEnumLoop env fuel size).events).countP isReportLine = 0 := by
  intro fuel
  induction fuel with
  | zero => intro size; simp [phEnumLoop, EnumLoopResult.events]
  | succ n ih =>
    intro size
    have h0 := ih (size * 2)
    unfold phEnumLoop
    dsimp only
    split_ifs with h1 h2
    · simp [EnumLoopResult.events, isReportLine]
    · rcases hr : phEnumLoop env n (size * 2) with ⟨ev⟩ | ⟨s1, sz, ev⟩ | _ <;>
        rw [hr] at h0 <;>
        simp_all [EnumLoopResult.events, isReportLine, List.countP_cons]
    · simp [EnumLoopResult.events]

theorem PhEnumHandlesEx_gotSnap_false (env : SearchEnv) (fuel : Nat)
    (hmap : (PhEnumHandlesEx env fuel).map (fun r => r.2.1) = some false) :
    ∃ s ev, PhEnumHandlesEx env fuel = some (s, false, ev) ∧
      ev.countP isReportLine = 0 := by
  have h0 := phEnumLoop_no_report env fuel 0x10000
  unfold PhEnumHandlesEx at hmap ⊢
  dsimp only at hmap ⊢
  rcases hr : phEnumLoop env fuel 0x10000 with ⟨ev⟩ | ⟨s1, sz, ev⟩ | _ <;>
      rw [hr] at hmap h0 <;> dsimp only [EnumLoopResult.events] at h0 <;>
      dsimp only at hmap ⊢
  · exact ⟨.INSUFFICIENT_RESOURCES, _, rfl,
      by simp [List.countP_cons, isReportLine, h0]⟩
  · split_ifs at hmap ⊢ with hs
    · simp at hmap
    · exact ⟨s1, _, rfl,
        by simp [List.countP_cons, List.countP_append, isReportLine, h0]⟩
  · simp at hmap

theorem phEnumLoop_terminates (env : SearchEnv) : ∀ fuel size, 0 < size →
    PH_LARGE_BUFFER_SIZE < size * 2 ^ fuel →
    phEnumLoop env (fuel + 1) size ≠ .fuelOut := by
  intro fuel
  induction fuel with
  | zero =>
    intro size h0 hc
    unfold phEnumLoop
    dsimp only
    split_ifs with h1 h2
    · simp
    · exfalso
      simp only [pow_zero, mul_one] at hc
      omega
    · simp
  | succ n ih =>
    intro size h0 hc
    have hc2 : PH_LARGE_BUFFER_SIZE < size * 2 * 2 ^ n := by
      have : size * 2 ^ (n + 1) = size * 2 * 2 ^ n := by ring
      omega
    have hrec := ih (size * 2) (by omega) hc2
    unfold phEnumLoop
    dsimp only
    split_ifs with h1 h2
    · simp
    · rcases hr : phEnumLoop env (n + 1) (size * 2) with ⟨ev⟩ | ⟨s1, sz, ev⟩ | _ <;>
        simp_all
    · simp

/-- C6: the snapshot capture loop of `PhEnumHandlesEx` reacts to each
`STATUS_INFO_LENGTH_MISMATCH` reply by freeing the buffer, doubling the
requested size and retrying (`enumRetryStep`); when the doubled size exceeds
`PH_LARGE_BUFFER_SIZE` it returns `STATUS_INSUFFICIENT_RESOURCES` instead,
and `PhEnumHandlesEx` surfaces that status with no snapshot; the loop cannot
run forever — fuel `log2(ceiling/initial) + 1` always suffices; and whenever
snapshot capture fails for any reason, `SearchProcess` returns FALSE having
emitted no header and no per-process line. -/
theorem c6_snapshot_ceiling_and_abort :
    (∀ (env : SearchEnv) (fuel size : Nat),
        env.enumReply size = .INFO_LENGTH_MISMATCH →
        size * 2 ≤ PH_LARGE_BUFFER_SIZE →
        phEnumLoop env (fuel + 1) size = enumRetryStep env fuel size) ∧
      (∀ (env : SearchEnv) (fuel size : Nat),
        env.enumReply size = .INFO_LENGTH_MISMATCH →
        size * 2 > PH_LARGE_BUFFER_SIZE →
        phEnumLoop env (fuel + 1) size = .insufficient [Event.freeSnapBuf]) ∧
      (∀ (env : SearchEnv) (fuel : Nat),
        (phEnumLoop env fuel 0x10000).isInsufficient = true →
        (PhEnumHandlesEx env fuel).map (fun r => (r.1, r.2.1)) =
          some (.INSUFFICIENT_RESOURCES, false)) ∧
      (∀ (env : SearchEnv) (fuel size : Nat), 0 < size →
        PH_LARGE_BUFFER_SIZE < size * 2 ^ fuel →
        phEnumLoop env (fuel + 1) size ≠ .fuelOut) ∧
      (∀ (env : SearchEnv) (fuel : Nat) (w : List Nat) (pm ig : Bool),
        env.capsOk = true → env.heapOk = true →
        (PhEnumHandlesEx env fuel).map (fun r => r.2.1) = some false →
        (searchProcess env w pm ig fuel).map
            (fun r => (r.1, r.2.countP isReportLine)) = some (false, 0)) := by
  refine ⟨?_, ?_, ?_, fun env => phEnumLoop_terminates env, ?_⟩
  · intro env fuel size hm hle
    unfold phEnumLoop enumRetryStep
    dsimp only
    rw [if_pos hm, if_neg (by omega)]
  · intro env fuel size hm hgt
    unfold phEnumLoop
    dsimp only
    rw [if_pos hm, if_pos hgt]
  · intro env fuel hins
    unfold PhEnumHandlesEx
    dsimp only
    rcases hr : phEnumLoop env fuel 0x10000 with ⟨ev⟩ | ⟨s1, sz, ev⟩ | _ <;>
      rw [hr] at hins <;>
      simp [EnumLoopResult.isInsufficient] at hins
    simp
  · intro env fuel w pm ig hcaps hheap hmap
    obtain ⟨s, ev, he, hev⟩ := PhEnumHandlesEx_gotSnap_false env fuel hmap
    unfold searchProcess
    rw [if_pos ⟨hcaps, hheap⟩, he]
    dsimp only
    simp [outEvents, List.countP_append, List.countP_cons, isReportLine, hev]

/-- Witness for C6 on an OS that always reports a length mismatch. -/
theorem c6_snapshot_ceiling_and_abort_witness :
    phEnumLoop c6wenv (5 + 1) 0x10000 = enumRetryStep c6wenv 5 0x10000 ∧
      phEnumLoop c6wenv (0 + 1) 0x4000000 = .insufficient [Event.freeSnapBuf] ∧
      (PhEnumHandlesEx c6wenv 64).map (fun r => (r.1, r.2.1)) =
        some (.INSUFFICIENT_RESOURCES, false) ∧
      phEnumLoop c6wenv (11 + 1) 0x10000 ≠ .fuelOut ∧
      (searchProcess c6wenv (strToWide "X") false true 64).map
          (fun r => (r.1, r.2.countP isReportLine)) = some (false, 0) :=
  ⟨c6_snapshot_ceiling_and_abort.1 c6wenv 5 0x10000 (by decide) (by decide),
    c6_snapshot_ceiling_and_abort.2.1 c6wenv 0 0x4000000 (by decide) (by decide),
    c6_snapshot_ceiling_and_abort.2.2.1 c6wenv 64 (by decide),
    c6_snapshot_ceiling_and_abort.2.2.2.1 c6wenv 11 0x10000 (by decide) (by decide),
    c6_snapshot_ceiling_and_abort.2.2.2.2 c6wenv 64 (strToWide "X") false true
      (by decide) (by decide) (by decide)⟩

theorem closeDup_pidGet (st : SearchState) :
    pidGet (closeDupPhase st).1 (1 - (closeDupPhase st).1.cur_pid % 2) =
      pidGet st (1 - st.cur_pid % 2) := by
  obtain ⟨h0, h1, hc, -, -⟩ := closeDupPhase_fields st
  simp [pidGet, h0, h1, hc]

theorem processCandidate_events_decomp (env : SearchEnv) (cfg : SearchConfig)
    (st : SearchState) (i : Nat) :
    ∃ rest, (processCandidate env cfg st i).2 =
        (openPhase env st (env.handles i).UniqueProcessId).2.1 ++ rest ∧
      rest.countP isOpenProc = 0 := by
  have hdup : ∀ raw, ((dupPhase env cfg
      (openPhase env st (env.handles i).UniqueProcessId).1 raw).2.1).countP
        isOpenProc = 0 := by
    intro raw
    rcases dupPhase_events env cfg (openPhase env st (env.handles i).UniqueProcessId).1
      raw with hd | hd <;> rw [hd] <;> simp [isOpenProc]
  unfold processCandidate
  dsimp only
  split_ifs with hok
  · rcases hd2 : (dupPhase env cfg (openPhase env st (env.handles i).UniqueProcessId).1
        (env.handles i).HandleValue).2.2 with _ | hval <;> dsimp only
    · exact ⟨_, rfl, hdup _⟩
    · split_ifs with hdisk
      · refine ⟨_, List.append_assoc _ _ _, ?_⟩
        rw [List.countP_append]
        rw [hdup (env.handles i).HandleValue,
          (matchReportPhase_countP env cfg (dupPhase env cfg
            (openPhase env st (env.handles i).UniqueProcessId).1
            (env.handles i).HandleValue).1 hval).1]
      · exact ⟨_, rfl, hdup _⟩
  · exact ⟨[], (List.append_nil _).symm, rfl⟩

theorem step_events_of_none (env : SearchEnv) (cfg : SearchConfig) (st : SearchState)
    (i : Nat) (hx : (stepGuards env st i).2.2 = none) :
    (step env cfg st i).2.1 =
      (stepGuards env st i).2.1 ++ (processCandidate env cfg (stepGuards env st i).1 i).2 := by
  rw [step_eq, hx]

theorem step_events_of_some (env : SearchEnv) (cfg : SearchConfig) (st : SearchState)
    (i : Nat) (ex : StepExit) (hx : (stepGuards env st i).2.2 = some ex) :
    (step env cfg st i).2.1 = (stepGuards env st i).2.1 := by
  rw [step_eq, hx]

theorem step_open_decomp (env : SearchEnv) (cfg : SearchConfig) (st : SearchState)
    (i : Nat) (hopen : 0 < ((step env cfg st i).2.1).countP isOpenProc) :
    (stepGuards env st i).2.2 = none ∧
      (stepGuards env st i).1.pid0 ≠ (stepGuards env st i).1.pid1 ∧
      Event.openProc (env.handles i).UniqueProcessId ∈ (step env cfg st i).2.1 := by
  have hg := (stepGuards_countP env st i).2
  rcases hx : (stepGuards env st i).2.2 with _ | ex
  · rw [step_events_of_none env cfg st i hx] at hopen ⊢
    obtain ⟨rest, hre, hr0⟩ :=
      processCandidate_events_decomp env cfg (stepGuards env st i).1 i
    rw [List.countP_append, hg, hre, List.countP_append, hr0] at hopen
    rcases openPhase_events env (stepGuards env st i).1
        (env.handles i).UniqueProcessId with ho | ⟨ho, hdiff⟩
    · rw [ho] at hopen
      simp at hopen
    · refine ⟨rfl, hdiff, ?_⟩
      rw [hre, ho]
      simp
  · rw [step_events_of_some env cfg st i ex hx, hg] at hopen
    omega

theorem step_open_imp_change (env : SearchEnv) (cfg : SearchConfig) (st : SearchState)
    (i : Nat) (hinv : pidGet st (1 - st.cur_pid % 2) = prevPid env i)
    (hopen : 0 < ((step env cfg st i).2.1).countP isOpenProc) :
    (env.handles i).UniqueProcessId ≠ prevPid env i := by
  obtain ⟨-, hdiff, -⟩ := step_open_decomp env cfg st i hopen
  rw [stepGuards_state] at hdiff
  have hr := (rotatePidPhase_pids (closeDupPhase st).1 (env.handles i).UniqueProcessId).1
  have h2 := hr.mp hdiff
  rwa [closeDup_pidGet, hinv] at h2

theorem step_state_of_none (env : SearchEnv) (cfg : SearchConfig) (st : SearchState)
    (i : Nat) (hx : (stepGuards env st i).2.2 = none) :
    (step env cfg st i).1 = (processCandidate env cfg (stepGuards env st i).1 i).1 := by
  rw [step_eq, hx]

theorem step_state_of_some (env : SearchEnv) (cfg : SearchConfig) (st : SearchState)
    (i : Nat) (ex : StepExit) (hx : (stepGuards env st i).2.2 = some ex) :
    (step env cfg st i).1 = (stepGuards env st i).1 := by
  rw [step_eq, hx]

theorem step_next_other_slot (env : SearchEnv) (cfg : SearchConfig) (st : SearchState)
    (i : Nat) :
    pidGet (step env cfg st i).1 (1 - (step env cfg st i).1.cur_pid % 2) =
      (env.handles i).UniqueProcessId := by
  have hrot := (rotatePidPhase_pids (closeDupPhase st).1 (env.handles i).UniqueProcessId).2
  rw [← stepGuards_state] at hrot
  rcases hx : (stepGuards env st i).2.2 with _ | ex
  · rw [step_state_of_none env cfg st i hx]
    obtain ⟨ph, m, d, bs, bf, e0, e1, ce, hshape, -⟩ :=
      processCandidate_shape env cfg (stepGuards env st i).1 i
    rw [hshape]
    simpa [pidGet] using hrot
  · rw [step_state_of_some env cfg st i ex hx]
    exact hrot

theorem step_open_le_one (env : SearchEnv) (cfg : SearchConfig) (st : SearchState)
    (i : Nat) :
    ((step env cfg st i).2.1).countP isOpenProc ≤ 1 := by
  have hg := (stepGuards_countP env st i).2
  rcases hx : (stepGuards env st i).2.2 with _ | ex
  · rw [step_events_of_none env cfg st i hx]
    obtain ⟨rest, hre, hr0⟩ :=
      processCandidate_events_decomp env cfg (stepGuards env st i).1 i
    rw [List.countP_append, hg, hre, List.countP_append, hr0]
    rcases openPhase_events env (stepGuards env st i).1
        (env.handles i).UniqueProcessId with ho | ⟨ho, -⟩ <;> rw [ho] <;>
      simp [isOpenProc]
  · rw [step_events_of_some env cfg st i ex hx, hg]
    omega

theorem rotatePidPhase_close (st : SearchState) (p hh : Nat)
    (hph : st.processHandle = some (.real hh))
    (hd : p ≠ pidGet st (1 - st.cur_pid % 2)) :
    (rotatePidPhase st p).2 = [Event.ntClose hh] := by
  rcases Nat.mod_two_eq_zero_or_one st.cur_pid with h | h <;>
    simp [pidGet, h] at hd <;>
    simp [rotatePidPhase, pidSet, closeProcPhase, h, hph, hd, Ne.symm hd]

theorem step_close_before_open (env : SearchEnv) (cfg : SearchConfig) (st : SearchState)
    (i hh : Nat) (hph : st.processHandle = some (.real hh))
    (hopen : 0 < ((step env cfg st i).2.1).countP isOpenProc) :
    [Event.ntClose hh,
      Event.openProc (env.handles i).UniqueProcessId].Sublist
      ((step env cfg st i).2.1) := by
  obtain ⟨hnone, hdiff, -⟩ := step_open_decomp env cfg st i hopen
  rw [stepGuards_state] at hdiff
  have hdg := (rotatePidPhase_pids (closeDupPhase st).1
    (env.handles i).UniqueProcessId).1.mp hdiff
  rw [closeDup_pidGet] at hdg
  have hph2 : (closeDupPhase st).1.processHandle = some (.real hh) := by
    rw [(closeDupPhase_fields st).2.2.2.2, hph]
  have hrc : (rotatePidPhase (closeDupPhase st).1 (env.handles i).UniqueProcessId).2 =
      [Event.ntClose hh] := by
    apply rotatePidPhase_close _ _ _ hph2
    rwa [closeDup_pidGet]
  have hcl : Event.ntClose hh ∈ (stepGuards env st i).2.1 := by
    rw [stepGuards_events, hrc]
    simp
  obtain ⟨rest, hre, hr0⟩ :=
    processCandidate_events_decomp env cfg (stepGuards env st i).1 i
  rcases openPhase_events env (stepGuards env st i).1
      (env.handles i).UniqueProcessId with ho | ⟨ho, -⟩
  · exfalso
    have hg := (stepGuards_countP env st i).2
    rw [step_events_of_none env cfg st i hnone] at hopen
    rw [List.countP_append, hg, hre, List.countP_append, ho, hr0] at hopen
    simp at hopen
  · have hop : Event.openProc (env.handles i).UniqueProcessId ∈
        (processCandidate env cfg (stepGuards env st i).1 i).2 := by
      rw [hre, ho]
      simp
    rw [step_events_of_none env cfg st i hnone]
    exact List.Sublist.append (List.singleton_sublist.mpr hcl)
      (List.singleton_sublist.mpr hop)

theorem runLoop_open_iters (env : SearchEnv) (cfg : SearchConfig) : ∀ fuel i st,
    pidGet st (1 - st.cur_pid % 2) = prevPid env i →
    ∀ stf iters, runLoop env cfg st i fuel = some (stf, iters) →
    ∀ pr ∈ iters, 0 < (pr.2).countP isOpenProc →
      pr.1 = 0 ∨ (env.handles pr.1).UniqueProcessId ≠
        (env.handles (pr.1 - 1)).UniqueProcessId := by
  intro fuel
  induction fuel with
  | zero =>
    intro i st hinv stf iters hrun
    simp [runLoop] at hrun
  | succ n ih =>
    intro i st hinv stf iters hrun pr hpr hopen
    rw [runLoop_succ] at hrun
    rcases hs : step env cfg st i with ⟨st1, ev, ex⟩
    rw [hs] at hrun
    have hhead : 0 < ev.countP isOpenProc →
        (i = 0 ∨ (env.handles i).UniqueProcessId ≠
          (env.handles (i - 1)).UniqueProcessId) := by
      intro ho
      have hop2 : 0 < ((step env cfg st i).2.1).countP isOpenProc := by
        rw [hs]
        exact ho
      have hch := step_open_imp_change env cfg st i hinv hop2
      by_cases hi : i = 0
      · exact Or.inl hi
      · right
        unfold prevPid at hch
        rw [if_neg hi] at hch
        exact hch
    cases ex <;> dsimp only at hrun
    case next =>
      rcases hr2 : runLoop env cfg st1 (i + 1) n with _ | ⟨stf2, l⟩ <;>
        rw [hr2] at hrun
      · cases hrun
      · simp only [Option.some.injEq, Prod.mk.injEq] at hrun
        obtain ⟨-, heq2⟩ := hrun
        subst heq2
        rcases List.mem_cons.mp hpr with hh | ht
        · subst hh
          exact hhead hopen
        · have hinv1 : pidGet st1 (1 - st1.cur_pid % 2) = prevPid env (i + 1) := by
            have hn := step_next_other_slot env cfg st i
            rw [hs] at hn
            dsimp only at hn
            rw [hn]
            unfold prevPid
            simp
          exact ih (i + 1) st1 hinv1 stf2 l hr2 pr ht hopen
    case brk =>
      simp only [Option.some.injEq, Prod.mk.injEq] at hrun
      obtain ⟨-, heq2⟩ := hrun
      subst heq2
      have := List.mem_singleton.mp hpr
      subst this
      exact hhead hopen
    case cancelled =>
      simp only [Option.some.injEq, Prod.mk.injEq] at hrun
      obtain ⟨-, heq2⟩ := hrun
      subst heq2
      have := List.mem_singleton.mp hpr
      subst this
      exact hhead hopen

/-- C8: (a) over any run of the per-candidate loop from the initial state, an
iteration that issues a `PhOpenProcess` call can only be iteration 0 or one
whose record's process id differs from the previous record's — so within a
maximal contiguous run of records sharing one pid, only the run's first
iteration can open, and by (b) each iteration issues at most one open, the
process is opened at most once per run; (c) when the slot holds a non-self
process handle and an open is issued, the old handle is passed to `NtClose`
earlier in the same iteration's event trace (closed before the slot is
reassigned). -/
theorem c8_open_once_per_pid_run :
    (∀ (env : SearchEnv) (cfg : SearchConfig) (fuel : Nat),
        ∀ pr ∈ ((runLoop env cfg initState 0 fuel).map Prod.snd).getD [],
          0 < (pr.2).countP isOpenProc →
          pr.1 = 0 ∨ (env.handles pr.1).UniqueProcessId ≠
            (env.handles (pr.1 - 1)).UniqueProcessId) ∧
      (∀ (env : SearchEnv) (cfg : SearchConfig) (st : SearchState) (i : Nat),
        ((step env cfg st i).2.1).countP isOpenProc ≤ 1) ∧
      (∀ (env : SearchEnv) (cfg : SearchConfig) (st : SearchState) (i hh : Nat),
        st.processHandle = some (.real hh) →
        0 < ((step env cfg st i).2.1).countP isOpenProc →
        [Event.ntClose hh,
          Event.openProc (env.handles i).UniqueProcessId].Sublist
          ((step env cfg st i).2.1)) := by
  refine ⟨?_, step_open_le_one, step_close_before_open⟩
  intro env cfg fuel pr hpr hopen
  rcases hr : runLoop env cfg initState 0 fuel with _ | ⟨stf, iters⟩
  · rw [hr] at hpr
    simp at hpr
  · rw [hr] at hpr
    simp only [Option.map_some', Option.getD_some] at hpr
    exact runLoop_open_iters env cfg fuel 0 initState rfl stf iters hr pr hpr hopen

/-- Witness for C8 on a concrete OS (two records of process 2, opens
denied): part (a) over the computed run, part (b) at iteration 0, part (c)
from a state holding the non-self process handle 100. -/
theorem c8_open_once_per_pid_run_witness :
    (∀ pr ∈ ((runLoop c9wenv (mkConfig (strToWide "X") false true) initState 0 8).map
        Prod.snd).getD [],
        0 < (pr.2).countP isOpenProc →
        pr.1 = 0 ∨ (c9wenv.handles pr.1).UniqueProcessId ≠
          (c9wenv.handles (pr.1 - 1)).UniqueProcessId) ∧
      ((step c9wenv (mkConfig (strToWide "X") false true) initState 0).2.1).countP
          isOpenProc ≤ 1 ∧
      [Event.ntClose 100, Event.openProc (c9wenv.handles 0).UniqueProcessId].Sublist
        ((step c9wenv (mkConfig (strToWide "X") false true)
          { initState with processHandle := some (.real 100) } 0).2.1) :=
  ⟨c8_open_once_per_pid_run.1 c9wenv (mkConfig (strToWide "X") false true) 8,
    c8_open_once_per_pid_run.2.1 c9wenv (mkConfig (strToWide "X") false true) initState 0,
    c8_open_once_per_pid_run.2.2 c9wenv (mkConfig (strToWide "X") false true)
      { initState with processHandle := some (.real 100) } 0 100 rfl (by decide)⟩

/-- C5 counterexample: on an empty snapshot whose out-of-bounds record at
index 0 carries process id 0 — equal to the initial access-denied memo — the
`continue` at line 438 fires before the exit test, and the loop executes two
iterations even though `NumberOfHandles + 1 = 1`, contradicting the claimed
bound. -/
theorem c5_access_denied_skip_postpones_exit :
    c5env.numberOfHandles = 0 ∧
      (runLoop c5env (mkConfig (strToWide "X") false true) initState 0 8).map
          (fun r => r.2.map Prod.fst) = some [0, 1] := by
  refine ⟨by decide, by decide⟩

end Search
